import Mathlib

/-!
Verification of the TCP-socket data-flow endpoint (src/transport/tcp_socket.cc).

The endpoint is modelled as an explicit state record `Sys` holding the socket
fields of `TcpSocket` together with the cancellation-token world (a fresh-id
counter and the set of canceled token ids).  Each public operation is split
into its synchronous issue phase (`Read`, `Write`, `CloseWrite`, `Open`,
`Continue`, `ReportError`, `Connect`) and the asynchronous completion closure
it registers (`ReadCompletion`, `WriteCompletion`, ...).  A completion takes
the data captured by the closure (its token snapshot, the moved buffer, the
precomputed error) and returns the new state together with the list of
handler invocations it performs.
-/

namespace Nekit

/-- Lifecycle states of the data-flow endpoint. -/
inductive State
  | Closed
  | Establishing
  | Established
  | Closing
deriving DecidableEq, Repr

/-- Error categories of the underlying boost error codes: the asio system
category, the asio misc category, or any other category. -/
inductive ECat
  | system
  | misc
  | other
deriving DecidableEq, Repr

/-- Numeric value of boost asio operation_aborted (ECANCELED). -/
def operation_aborted : Nat := 125

/-- Numeric value of boost asio connection_aborted (ECONNABORTED). -/
def connection_aborted : Nat := 103

/-- Numeric value of boost asio connection_reset (ECONNRESET). -/
def connection_reset : Nat := 104

/-- Numeric value of boost asio host_unreachable (EHOSTUNREACH). -/
def host_unreachable : Nat := 113

/-- Numeric value of boost asio network_down (ENETDOWN). -/
def network_down : Nat := 100

/-- Numeric value of boost asio network_reset (ENETRESET). -/
def network_reset : Nat := 102

/-- Numeric value of boost asio network_unreachable (ENETUNREACH). -/
def network_unreachable : Nat := 101

/-- Numeric value of boost asio timed_out (ETIMEDOUT). -/
def timed_out : Nat := 110

/-- Numeric value of boost asio misc_errors eof. -/
def misc_eof : Nat := 2

/-- A low-level boost error code: a category and a numeric value. -/
structure BoostErr where
  category : ECat
  val : Nat
deriving DecidableEq, Repr

/-- Truthiness of a boost error code, as tested by `if (ec)` in the source:
nonzero value means failure. -/
def BoostErr.failed (ec : BoostErr) : Bool := ec.val != 0

/-- The transport-neutral error taxonomy.  `Original` is the fallback that
preserves the platform error code (the source returns
`std::make_error_code(ec)` rather than a generic unknown value). -/
inductive ErrorCode
  | NoError
  | Canceled
  | EndOfFile
  | ConnectionAborted
  | ConnectionReset
  | HostUnreachable
  | NetworkDown
  | NetworkReset
  | NetworkUnreachable
  | TimedOut
  | Original (category : ECat) (val : Nat)
deriving DecidableEq, Repr

/-- Embedding of TcpSocket::ConvertBoostError: the switch over the system
category values, the eof check in the misc category, and the fallback that
keeps the original code. -/
def ConvertBoostError (ec : BoostErr) : ErrorCode :=
  if ec.category = ECat.system then
    if ec.val = operation_aborted then ErrorCode.Canceled
    else if ec.val = connection_aborted then ErrorCode.ConnectionAborted
    else if ec.val = connection_reset then ErrorCode.ConnectionReset
    else if ec.val = host_unreachable then ErrorCode.HostUnreachable
    else if ec.val = network_down then ErrorCode.NetworkDown
    else if ec.val = network_reset then ErrorCode.NetworkReset
    else if ec.val = network_unreachable then ErrorCode.NetworkUnreachable
    else if ec.val = timed_out then ErrorCode.TimedOut
    else ErrorCode.Original ec.category ec.val
  else if ec.category = ECat.misc then
    if ec.val = misc_eof then ErrorCode.EndOfFile
    else ErrorCode.Original ec.category ec.val
  else ErrorCode.Original ec.category ec.val

/-- Modelled from the spec: the Generic Buffer collaborator (utils::Buffer is
not under src).  The spec gives it a walk-chunks operation yielding each
internal contiguous region in order, a logical size, and a
shrink-from-back-by-N-bytes operation.  Chunks are modelled by their sizes;
`shrinks` counts how many times ShrinkBack has been applied, so that the
exactly-once shrink discipline is observable. -/
structure Buffer where
  chunks : List Nat
  shrinks : Nat
deriving DecidableEq, Repr

/-- Logical size of a buffer: the total length of its chunks. -/
def Buffer.size (b : Buffer) : Nat := b.chunks.sum

/-- Remove n leading bytes from a chunk-size list (helper for shrinking a
reversed chunk list from the back). -/
def trimFront : Nat → List Nat → List Nat
  | _, [] => []
  | n, c :: rest =>
    if n = 0 then c :: rest
    else if c ≤ n then trimFront (n - c) rest
    else (c - n) :: rest

/-- Modelled from the spec: Buffer::ShrinkBack shrinks the logical size from
the back by n bytes.  The shrink counter is incremented. -/
def Buffer.ShrinkBack (b : Buffer) (n : Nat) : Buffer :=
  { chunks := (trimFront n b.chunks.reverse).reverse, shrinks := b.shrinks + 1 }

/-- Modelled from the spec: Buffer::WalkInternalChunk walks every internal
chunk in order; the Read and Write issue paths append one span per chunk, so
the span list produced equals the chunk list. -/
def Buffer.flattenSpans (b : Buffer) : List Nat := b.chunks

/-- The endpoint state: the fields of TcpSocket together with the token
world.  Tokens are ids; `canceledTokens` is the set of ids whose shared flag
has been set.  `read_buffer_` is an Option because the source moves the span
vector (a unique_ptr) out of the member into the completion closure. -/
structure Sys where
  state_ : State
  read_closed_ : Bool
  write_closed_ : Bool
  reading_ : Bool
  writing_ : Bool
  read_cancelable_ : Nat
  write_cancelable_ : Nat
  report_cancelable_ : Nat
  connect_cancelable_ : Nat
  read_buffer_ : Option (List Nat)
  write_buffer_ : List Nat
  connect_to_ : Option Nat
  nextToken : Nat
  canceledTokens : List Nat
deriving DecidableEq, Repr

/-- Cancel a token: its id joins the canceled set (idempotent in effect,
irreversible). -/
def Sys.cancel (s : Sys) (t : Nat) : Sys :=
  { s with canceledTokens := t :: s.canceledTokens }

/-- Query whether a token id has been canceled. -/
def Sys.isCanceled (s : Sys) (t : Nat) : Bool :=
  decide (t ∈ s.canceledTokens)

/-- One invocation of a caller-supplied handler: the data handler receives
the buffer back with an error, the event handler receives an error only. -/
inductive HandlerCall
  | data (buffer : Buffer) (error : ErrorCode)
  | event (error : ErrorCode)
deriving DecidableEq, Repr

namespace TcpSocket

/-- Data captured by the read completion closure: the token snapshot, the
moved span vector (buffer_wrapper) and the moved buffer. -/
structure ReadCtx where
  tok : Nat
  wrapper : List Nat
  buffer : Buffer
deriving DecidableEq, Repr

/-- Entry contract of TcpSocket::Read (the BOOST_ASSERTs). -/
def ReadPre (s : Sys) (buffer : Buffer) : Prop :=
  s.read_closed_ = false ∧ s.reading_ = false ∧ 0 < buffer.size ∧
  s.read_buffer_ = some [] ∧ s.state_ ≠ State.Closed

/-- Issue phase of TcpSocket::Read: fresh read token, one span pushed per
buffer chunk into the member span vector, which is then moved into the
closure together with the buffer; the reading busy-flag is set. -/
def Read (s : Sys) (buffer : Buffer) : Sys × ReadCtx :=
  let tok := s.nextToken
  let wrapper := s.read_buffer_.getD [] ++ buffer.flattenSpans
  ({ s with read_cancelable_ := tok
          , nextToken := tok + 1
          , read_buffer_ := none
          , reading_ := true },
   { tok := tok, wrapper := wrapper, buffer := buffer })

/-- The reconcile step on the read success path: if fewer bytes were
transferred than the buffer size, shrink the buffer from the back by the
difference; on a full transfer the buffer is untouched. -/
def reconcile (buffer : Buffer) (bytes_transferred : Nat) : Buffer :=
  if bytes_transferred ≠ buffer.size then
    buffer.ShrinkBack (buffer.size - bytes_transferred)
  else buffer

/-- Completion closure of TcpSocket::Read.  Checks the token snapshot first;
then clears the busy-flag; on EOF closes only the read direction and picks
Closed or Closing from the other direction; on any other failure closes both
directions, cancels the write token and reports; on success reconciles the
buffer, restores and clears the span vector, and reports NoError. -/
def ReadCompletion (s : Sys) (ctx : ReadCtx) (ec : BoostErr)
    (bytes_transferred : Nat) : Sys × List HandlerCall :=
  if s.isCanceled ctx.tok then (s, [])
  else
    let s1 := { s with reading_ := false }
    if ec.failed then
      let error := ConvertBoostError ec
      if error = ErrorCode.EndOfFile then
        let st := if s1.write_closed_ && !s1.writing_ then State.Closed
                  else State.Closing
        let s2 := { s1 with read_closed_ := true, state_ := st }
        (s2, [HandlerCall.data ctx.buffer error])
      else
        let s2 :=
          { s1 with state_ := State.Closed, read_closed_ := true,
                    write_closed_ := true }
        (s2.cancel s2.write_cancelable_, [HandlerCall.data ctx.buffer error])
    else
      let buffer := reconcile ctx.buffer bytes_transferred
      let s2 := { s1 with read_buffer_ := some [] }
      (s2, [HandlerCall.data buffer ErrorCode.NoError])

/-- Data captured by the write completion closure. -/
structure WriteCtx where
  tok : Nat
  buffer : Buffer
deriving DecidableEq, Repr

/-- Entry contract of TcpSocket::Write (the BOOST_ASSERTs). -/
def WritePre (s : Sys) (buffer : Buffer) : Prop :=
  s.write_closed_ = false ∧ s.writing_ = false ∧ 0 < buffer.size ∧
  s.write_buffer_ = [] ∧ s.state_ ≠ State.Closed

/-- Issue phase of TcpSocket::Write: fresh write token, one span appended
per buffer chunk into the member span vector (used in place, not moved), and
the writing busy-flag is set. -/
def Write (s : Sys) (buffer : Buffer) : Sys × WriteCtx :=
  let tok := s.nextToken
  ({ s with write_cancelable_ := tok
          , nextToken := tok + 1
          , write_buffer_ := s.write_buffer_ ++ buffer.flattenSpans
          , writing_ := true },
   { tok := tok, buffer := buffer })

/-- Completion closure of TcpSocket::Write.  Checks the token snapshot
first; on any failure closes both directions, moves to Closed, cancels the
read token and reports the translated error; on success (full transfer
asserted) clears the span vector and reports NoError. -/
def WriteCompletion (s : Sys) (ctx : WriteCtx) (ec : BoostErr)
    (bytes_transferred : Nat) : Sys × List HandlerCall :=
  if s.isCanceled ctx.tok then (s, [])
  else
    let s1 := { s with writing_ := false }
    if ec.failed then
      let error := ConvertBoostError ec
      let s2 :=
        { s1 with read_closed_ := true, write_closed_ := true,
                  state_ := State.Closed }
      (s2.cancel s2.read_cancelable_, [HandlerCall.event error])
    else
      ({ s1 with write_buffer_ := [] }, [HandlerCall.event ErrorCode.NoError])

/-- Data captured by the CloseWrite posted continuation: the token snapshot
and the error computed synchronously at issue time; `didShutdown` records
whether a send-direction shutdown was issued on the primitive. -/
structure CloseWriteCtx where
  tok : Nat
  error : ErrorCode
  didShutdown : Bool
deriving DecidableEq, Repr

/-- Entry contract of TcpSocket::CloseWrite (the BOOST_ASSERTs). -/
def CloseWritePre (s : Sys) : Prop :=
  s.writing_ = false ∧ s.state_ ≠ State.Closed

/-- Issue phase of TcpSocket::CloseWrite.  If the write direction is already
closed, no shutdown is issued and the error is NoError; otherwise the
send-direction shutdown is issued (its outcome `shutdown_ec` is translated
into the reported error) and write_closed is set regardless.  Both branches
then take a fresh write token, set the writing guard flag and move the state
to Closing before posting the continuation. -/
def CloseWrite (s : Sys) (shutdown_ec : BoostErr) : Sys × CloseWriteCtx :=
  let tok := s.nextToken
  if s.write_closed_ then
    ({ s with write_cancelable_ := tok
            , nextToken := tok + 1
            , writing_ := true
            , state_ := State.Closing },
     { tok := tok, error := ErrorCode.NoError, didShutdown := false })
  else
    ({ s with write_closed_ := true
            , write_cancelable_ := tok
            , nextToken := tok + 1
            , writing_ := true
            , state_ := State.Closing },
     { tok := tok, error := ConvertBoostError shutdown_ec, didShutdown := true })

/-- Posted continuation of TcpSocket::CloseWrite: checks the token snapshot,
clears the writing guard, advances to Closed exactly when the read direction
is also closed, and reports the captured error. -/
def CloseWriteCompletion (s : Sys) (ctx : CloseWriteCtx) :
    Sys × List HandlerCall :=
  if s.isCanceled ctx.tok then (s, [])
  else
    let s1 := { s with writing_ := false }
    let s2 := if s1.read_closed_ then { s1 with state_ := State.Closed } else s1
    (s2, [HandlerCall.event ctx.error])

/-- Issue phase of TcpSocket::Open: fresh report token, state moves to
Establishing, then the acknowledgment is posted. -/
def Open (s : Sys) : Sys × Nat :=
  let tok := s.nextToken
  ({ s with report_cancelable_ := tok
          , nextToken := tok + 1
          , state_ := State.Establishing }, tok)

/-- Posted continuation of TcpSocket::Open. -/
def OpenCompletion (s : Sys) (tok : Nat) : Sys × List HandlerCall :=
  if s.isCanceled tok then (s, [])
  else (s, [HandlerCall.event ErrorCode.NoError])

/-- Issue phase of TcpSocket::Continue: fresh report token only. -/
def Continue (s : Sys) : Sys × Nat :=
  let tok := s.nextToken
  ({ s with report_cancelable_ := tok, nextToken := tok + 1 }, tok)

/-- Posted continuation of TcpSocket::Continue: moves state to Established
and acknowledges. -/
def ContinueCompletion (s : Sys) (tok : Nat) : Sys × List HandlerCall :=
  if s.isCanceled tok then (s, [])
  else ({ s with state_ := State.Established },
        [HandlerCall.event ErrorCode.NoError])

/-- Issue phase of TcpSocket::ReportError: cancels the read, write, connect
and previous report tokens, clears both busy-flags, forces both directions
closed, takes a fresh report token and posts the acknowledgment.  The state
field is not touched by the source. -/
def ReportError (s : Sys) : Sys × Nat :=
  let s1 := (((s.cancel s.read_cancelable_).cancel
      s.write_cancelable_).cancel s.connect_cancelable_).cancel
      s.report_cancelable_
  let tok := s1.nextToken
  ({ s1 with reading_ := false
           , writing_ := false
           , read_closed_ := true
           , write_closed_ := true
           , report_cancelable_ := tok
           , nextToken := tok + 1 }, tok)

/-- Posted continuation of TcpSocket::ReportError: the no-error
acknowledgment. -/
def ReportErrorCompletion (s : Sys) (tok : Nat) : Sys × List HandlerCall :=
  if s.isCanceled tok then (s, [])
  else (s, [HandlerCall.event ErrorCode.NoError])

/-- Data captured around TcpSocket::Connect: the token returned by the
connector, and the stale snapshot of connect_cancelable_ captured by the
lambda before the member was reassigned. -/
structure ConnectCtx where
  connectorTok : Nat
  capturedTok : Nat
deriving DecidableEq, Repr

/-- Issue phase of TcpSocket::Connect: records the target endpoint from the
session, moves to Establishing, and hands a completion lambda to the
connector.  The lambda captures the old connect_cancelable_ value; the member
is then overwritten with the token the connector returned. -/
def Connect (s : Sys) (endpoint : Nat) : Sys × ConnectCtx :=
  let captured := s.connect_cancelable_
  let tok := s.nextToken
  ({ s with connect_to_ := some endpoint
          , state_ := State.Establishing
          , connect_cancelable_ := tok
          , nextToken := tok + 1 },
   { connectorTok := tok, capturedTok := captured })

/-- The completion lambda of TcpSocket::Connect: checks its captured token
snapshot; on connector error the state falls back to Closed, otherwise it
becomes Established; the raw error is handed to the handler untranslated. -/
def ConnectCompletion (s : Sys) (ctx : ConnectCtx) (ec : ErrorCode) :
    Sys × List HandlerCall :=
  if s.isCanceled ctx.capturedTok then (s, [])
  else if ec ≠ ErrorCode.NoError then
    ({ s with state_ := State.Closed }, [HandlerCall.event ec])
  else
    ({ s with state_ := State.Established }, [HandlerCall.event ec])

/-- Modelled from the spec: the Active Connector collaborator (TcpConnector
is not under src).  The spec makes it cancelable via the same token
convention, so it delivers the completion it was handed only when the token
it returned has not been canceled. -/
def ConnectDeliver (s : Sys) (ctx : ConnectCtx) (ec : ErrorCode) :
    Sys × List HandlerCall :=
  if s.isCanceled ctx.connectorTok then (s, [])
  else ConnectCompletion s ctx ec

/-- TcpSocket::IsReadClosed. -/
def IsReadClosed (s : Sys) : Bool := s.read_closed_

/-- TcpSocket::IsWriteClosed. -/
def IsWriteClosed (s : Sys) : Bool := s.write_closed_

/-- TcpSocket::IsWriteClosing. -/
def IsWriteClosing (s : Sys) : Bool := s.write_closed_ && s.writing_

/-- TcpSocket::IsReading. -/
def IsReading (s : Sys) : Bool := s.reading_

/-- TcpSocket::IsWriting. -/
def IsWriting (s : Sys) : Bool := s.writing_ && !s.write_closed_

end TcpSocket

/-- A freshly constructed endpoint state, before Open or Connect. -/
def initSys : Sys :=
  { state_ := State.Closed
  , read_closed_ := false
  , write_closed_ := false
  , reading_ := false
  , writing_ := false
  , read_cancelable_ := 0
  , write_cancelable_ := 0
  , report_cancelable_ := 0
  , connect_cancelable_ := 0
  , read_buffer_ := some []
  , write_buffer_ := []
  , connect_to_ := none
  , nextToken := 1
  , canceledTokens := [] }

/-- An established endpoint state with distinct outstanding token ids, used
for concrete runs. -/
def estSys : Sys :=
  { initSys with
      state_ := State.Established,
      read_cancelable_ := 1,
      write_cancelable_ := 2,
      report_cancelable_ := 3,
      connect_cancelable_ := 4,
      nextToken := 5 }

/-- C9: ConvertBoostError maps operation-aborted to Canceled,
connection-aborted to ConnectionAborted, connection-reset to
ConnectionReset, host-unreachable to HostUnreachable, network-down to
NetworkDown, network-reset to NetworkReset, network-unreachable to
NetworkUnreachable, timed-out to TimedOut and end-of-file to EndOfFile, and
for every other input returns an error preserving the original platform
category and value.  It is a pure function of the error code alone,
mirroring the const method that reads no object state. -/
theorem convertBoostError_spec :
    ConvertBoostError ⟨ECat.system, operation_aborted⟩ = ErrorCode.Canceled ∧
    ConvertBoostError ⟨ECat.system, connection_aborted⟩ =
      ErrorCode.ConnectionAborted ∧
    ConvertBoostError ⟨ECat.system, connection_reset⟩ =
      ErrorCode.ConnectionReset ∧
    ConvertBoostError ⟨ECat.system, host_unreachable⟩ =
      ErrorCode.HostUnreachable ∧
    ConvertBoostError ⟨ECat.system, network_down⟩ = ErrorCode.NetworkDown ∧
    ConvertBoostError ⟨ECat.system, network_reset⟩ = ErrorCode.NetworkReset ∧
    ConvertBoostError ⟨ECat.system, network_unreachable⟩ =
      ErrorCode.NetworkUnreachable ∧
    ConvertBoostError ⟨ECat.system, timed_out⟩ = ErrorCode.TimedOut ∧
    ConvertBoostError ⟨ECat.misc, misc_eof⟩ = ErrorCode.EndOfFile ∧
    ∀ ec : BoostErr,
      (ec.category = ECat.system →
        ec.val ≠ operation_aborted ∧ ec.val ≠ connection_aborted ∧
        ec.val ≠ connection_reset ∧ ec.val ≠ host_unreachable ∧
        ec.val ≠ network_down ∧ ec.val ≠ network_reset ∧
        ec.val ≠ network_unreachable ∧ ec.val ≠ timed_out) →
      (ec.category = ECat.misc → ec.val ≠ misc_eof) →
      ConvertBoostError ec = ErrorCode.Original ec.category ec.val := by
  refine ⟨by decide, by decide, by decide, by decide, by decide, by decide,
    by decide, by decide, by decide, ?_⟩
  rintro ⟨cat, v⟩ hsys hmisc
  cases cat
  · obtain ⟨h1, h2, h3, h4, h5, h6, h7, h8⟩ := hsys rfl
    simp only [BoostErr.val] at h1 h2 h3 h4 h5 h6 h7 h8
    simp [ConvertBoostError, h1, h2, h3, h4, h5, h6, h7, h8]
  · have h := hmisc rfl
    simp only [BoostErr.val] at h
    simp [ConvertBoostError, h]
  · simp [ConvertBoostError]

/-- Witness for C9: an unmapped system-category value (EPERM) comes back
with its original category and value. -/
theorem convertBoostError_spec_witness :
    ConvertBoostError ⟨ECat.system, 1⟩ = ErrorCode.Original ECat.system 1 :=
  convertBoostError_spec.2.2.2.2.2.2.2.2.2 ⟨ECat.system, 1⟩ (by decide)
    (by decide)

/-- C10: IsWriting is true only when the writing busy-flag is set and the
write direction is not closed; while a CloseWrite completion is pending
(busy-flag set and write_closed true, the situation every CloseWrite issue
leaves behind) IsWriting is false and IsWriteClosing is true; and
IsWriteClosing is true exactly when write_closed and the writing busy-flag
are both set. -/
theorem isWriting_isWriteClosing_spec (s : Sys) :
    (TcpSocket.IsWriting s = true →
      s.writing_ = true ∧ s.write_closed_ = false) ∧
    (s.writing_ = true → s.write_closed_ = true →
      TcpSocket.IsWriting s = false ∧ TcpSocket.IsWriteClosing s = true) ∧
    (TcpSocket.IsWriteClosing s = true ↔
      s.write_closed_ = true ∧ s.writing_ = true) ∧
    (∀ ec, TcpSocket.IsWriting (TcpSocket.CloseWrite s ec).1 = false ∧
      TcpSocket.IsWriteClosing (TcpSocket.CloseWrite s ec).1 = true) := by
  refine ⟨?_, ?_, ?_, ?_⟩
  · intro h
    simp only [TcpSocket.IsWriting, Bool.and_eq_true, Bool.not_eq_true'] at h
    exact h
  · intro hw hc
    simp [TcpSocket.IsWriting, TcpSocket.IsWriteClosing, hw, hc]
  · simp [TcpSocket.IsWriteClosing, Bool.and_eq_true, and_comm]
  · intro ec
    cases hw : s.write_closed_ <;>
      simp [TcpSocket.CloseWrite, TcpSocket.IsWriting,
        TcpSocket.IsWriteClosing, hw]

/-- Witness for C10: on a state with a pending CloseWrite completion the
queries answer false and true. -/
theorem isWriting_isWriteClosing_spec_witness :
    TcpSocket.IsWriting
        { estSys with writing_ := true, write_closed_ := true } = false ∧
      TcpSocket.IsWriteClosing
        { estSys with writing_ := true, write_closed_ := true } = true :=
  (isWriting_isWriteClosing_spec
    { estSys with writing_ := true, write_closed_ := true }).2.1 rfl rfl

/-- C3: a Read completion that observes end-of-file sets read_closed and
moves the state to Closed when the write direction is already closed with
no write in flight, otherwise to Closing; the handler is invoked with the
EndOfFile error. -/
theorem read_eof_spec (s : Sys) (ctx : TcpSocket.ReadCtx) (ec : BoostErr)
    (bytes : Nat) (hc : s.isCanceled ctx.tok = false)
    (hf : ec.failed = true)
    (he : ConvertBoostError ec = ErrorCode.EndOfFile) :
    TcpSocket.ReadCompletion s ctx ec bytes =
      ({ s with
          reading_ := false, read_closed_ := true,
          state_ := if s.write_closed_ && !s.writing_ then State.Closed
                    else State.Closing },
       [HandlerCall.data ctx.buffer ErrorCode.EndOfFile]) := by
  simp [TcpSocket.ReadCompletion, hc, hf, he]

/-- Witness for C3: a concrete EOF completion on an established endpoint
with the write direction still open ends in Closing. -/
theorem read_eof_spec_witness :
    TcpSocket.ReadCompletion estSys ⟨7, [], ⟨[3], 0⟩⟩
        ⟨ECat.misc, misc_eof⟩ 0 =
      ({ estSys with
          reading_ := false, read_closed_ := true,
          state_ := if estSys.write_closed_ && !estSys.writing_ then
                      State.Closed
                    else State.Closing },
       [HandlerCall.data ⟨[3], 0⟩ ErrorCode.EndOfFile]) :=
  read_eof_spec estSys ⟨7, [], ⟨[3], 0⟩⟩ ⟨ECat.misc, misc_eof⟩ 0
    (by decide) (by decide) (by decide)

/-- C4: any failure on a Write completion, and any non-end-of-file failure
on a Read completion, is fatal for the whole endpoint: both read_closed and
write_closed become true, the state becomes Closed, the token of the other
direction's in-flight operation is proactively canceled, and the translated
error is reported to the handler exactly once. -/
theorem fatal_error_spec :
    (∀ (s : Sys) (ctx : TcpSocket.ReadCtx) (ec : BoostErr) (bytes : Nat),
      s.isCanceled ctx.tok = false → ec.failed = true →
      ConvertBoostError ec ≠ ErrorCode.EndOfFile →
      TcpSocket.ReadCompletion s ctx ec bytes =
        (({ s with
             reading_ := false, state_ := State.Closed,
             read_closed_ := true, write_closed_ := true }).cancel
           s.write_cancelable_,
         [HandlerCall.data ctx.buffer (ConvertBoostError ec)]) ∧
      (TcpSocket.ReadCompletion s ctx ec bytes).1.isCanceled
          s.write_cancelable_ = true) ∧
    (∀ (s : Sys) (ctx : TcpSocket.WriteCtx) (ec : BoostErr) (bytes : Nat),
      s.isCanceled ctx.tok = false → ec.failed = true →
      TcpSocket.WriteCompletion s ctx ec bytes =
        (({ s with
             writing_ := false, read_closed_ := true,
             write_closed_ := true, state_ := State.Closed }).cancel
           s.read_cancelable_,
         [HandlerCall.event (ConvertBoostError ec)]) ∧
      (TcpSocket.WriteCompletion s ctx ec bytes).1.isCanceled
          s.read_cancelable_ = true) := by
  constructor
  · intro s ctx ec bytes hc hf he
    have heq : TcpSocket.ReadCompletion s ctx ec bytes =
        (({ s with
             reading_ := false, state_ := State.Closed,
             read_closed_ := true, write_closed_ := true }).cancel
           s.write_cancelable_,
         [HandlerCall.data ctx.buffer (ConvertBoostError ec)]) := by
      simp [TcpSocket.ReadCompletion, hc, hf, he]
    refine ⟨heq, ?_⟩
    rw [heq]
    simp [Sys.isCanceled, Sys.cancel]
  · intro s ctx ec bytes hc hf
    have heq : TcpSocket.WriteCompletion s ctx ec bytes =
        (({ s with
             writing_ := false, read_closed_ := true,
             write_closed_ := true, state_ := State.Closed }).cancel
           s.read_cancelable_,
         [HandlerCall.event (ConvertBoostError ec)]) := by
      simp [TcpSocket.WriteCompletion, hc, hf]
    refine ⟨heq, ?_⟩
    rw [heq]
    simp [Sys.isCanceled, Sys.cancel]

/-- Witness for C4: a concrete Write completion failing with a reset
condition closes both directions, cancels the read token and reports
ConnectionReset. -/
theorem fatal_error_spec_witness :
    TcpSocket.WriteCompletion estSys ⟨9, ⟨[4], 0⟩⟩
        ⟨ECat.system, connection_reset⟩ 0 =
      (({ estSys with
           writing_ := false, read_closed_ := true,
           write_closed_ := true, state_ := State.Closed }).cancel
         estSys.read_cancelable_,
       [HandlerCall.event
         (ConvertBoostError ⟨ECat.system, connection_reset⟩)]) :=
  (fatal_error_spec.2 estSys ⟨9, ⟨[4], 0⟩⟩ ⟨ECat.system, connection_reset⟩ 0
    (by decide) (by decide)).1

/-- C6: CloseWrite on an already write-closed endpoint reports no-error
success asynchronously without issuing a shutdown; otherwise it issues the
send-direction shutdown, sets write_closed regardless of the shutdown
outcome (a failure is translated and reported), and moves the state to
Closing; the posted completion advances the state to Closed exactly when
the read direction is also closed. -/
theorem closeWrite_spec :
    (∀ (s : Sys) (ec : BoostErr), s.write_closed_ = true →
      TcpSocket.CloseWrite s ec =
        ({ s with
            write_cancelable_ := s.nextToken,
            nextToken := s.nextToken + 1, writing_ := true,
            state_ := State.Closing },
         { tok := s.nextToken, error := ErrorCode.NoError,
           didShutdown := false })) ∧
    (∀ (s : Sys) (ec : BoostErr), s.write_closed_ = false →
      TcpSocket.CloseWrite s ec =
        ({ s with
            write_closed_ := true,
            write_cancelable_ := s.nextToken,
            nextToken := s.nextToken + 1, writing_ := true,
            state_ := State.Closing },
         { tok := s.nextToken, error := ConvertBoostError ec,
           didShutdown := true })) ∧
    (∀ (s : Sys) (ctx : TcpSocket.CloseWriteCtx),
      s.isCanceled ctx.tok = false →
      (TcpSocket.CloseWriteCompletion s ctx).1.writing_ = false ∧
      (TcpSocket.CloseWriteCompletion s ctx).1.state_ =
        (if s.read_closed_ then State.Closed else s.state_) ∧
      (TcpSocket.CloseWriteCompletion s ctx).2 =
        [HandlerCall.event ctx.error]) := by
  refine ⟨?_, ?_, ?_⟩
  · intro s ec hw
    simp [TcpSocket.CloseWrite, hw]
  · intro s ec hw
    simp [TcpSocket.CloseWrite, hw]
  · intro s ctx hc
    cases hr : s.read_closed_ <;>
      simp [TcpSocket.CloseWriteCompletion, hc, hr]

/-- Witness for C6: a concrete pending CloseWrite completion reports the
captured no-error acknowledgment. -/
theorem closeWrite_spec_witness :
    (TcpSocket.CloseWriteCompletion estSys
        ⟨7, ErrorCode.NoError, false⟩).2 =
      [HandlerCall.event ErrorCode.NoError] :=
  (closeWrite_spec.2.2 estSys ⟨7, ErrorCode.NoError, false⟩ (by decide)).2.2

/-- C1 (amended): canceling the token an operation returned before its
underlying completion runs guarantees the caller-supplied handler is never
invoked and the completion changes no endpoint flag or state field (it
returns the state exactly as it found it); flags and state fields written
synchronously at issue time are not undone.  For Connect the suppression of
the connector delivery follows the spec-modelled token convention of the
Active Connector. -/
theorem cancel_suppresses_completion :
    (∀ (s : Sys) (ctx : TcpSocket.ReadCtx) (ec : BoostErr) (bytes : Nat),
      s.isCanceled ctx.tok = true →
      TcpSocket.ReadCompletion s ctx ec bytes = (s, [])) ∧
    (∀ (s : Sys) (ctx : TcpSocket.WriteCtx) (ec : BoostErr) (bytes : Nat),
      s.isCanceled ctx.tok = true →
      TcpSocket.WriteCompletion s ctx ec bytes = (s, [])) ∧
    (∀ (s : Sys) (ctx : TcpSocket.CloseWriteCtx),
      s.isCanceled ctx.tok = true →
      TcpSocket.CloseWriteCompletion s ctx = (s, [])) ∧
    (∀ (s : Sys) (tok : Nat), s.isCanceled tok = true →
      TcpSocket.OpenCompletion s tok = (s, [])) ∧
    (∀ (s : Sys) (tok : Nat), s.isCanceled tok = true →
      TcpSocket.ContinueCompletion s tok = (s, [])) ∧
    (∀ (s : Sys) (tok : Nat), s.isCanceled tok = true →
      TcpSocket.ReportErrorCompletion s tok = (s, [])) ∧
    (∀ (s : Sys) (ctx : TcpSocket.ConnectCtx) (ec : ErrorCode),
      s.isCanceled ctx.connectorTok = true →
      TcpSocket.ConnectDeliver s ctx ec = (s, [])) := by
  refine ⟨?_, ?_, ?_, ?_, ?_, ?_, ?_⟩
  · intro s ctx ec bytes h
    simp [TcpSocket.ReadCompletion, h]
  · intro s ctx ec bytes h
    simp [TcpSocket.WriteCompletion, h]
  · intro s ctx h
    simp [TcpSocket.CloseWriteCompletion, h]
  · intro s tok h
    simp [TcpSocket.OpenCompletion, h]
  · intro s tok h
    simp [TcpSocket.ContinueCompletion, h]
  · intro s tok h
    simp [TcpSocket.ReportErrorCompletion, h]
  · intro s ctx ec h
    simp [TcpSocket.ConnectDeliver, h]

/-- Witness for the amended C1: a concrete canceled read completion leaves
the state untouched and performs no handler call. -/
theorem cancel_suppresses_completion_witness :
    TcpSocket.ReadCompletion { estSys with canceledTokens := [7] }
        ⟨7, [], ⟨[3], 0⟩⟩ ⟨ECat.misc, misc_eof⟩ 0 =
      ({ estSys with canceledTokens := [7] }, []) :=
  cancel_suppresses_completion.1 { estSys with canceledTokens := [7] }
    ⟨7, [], ⟨[3], 0⟩⟩ ⟨ECat.misc, misc_eof⟩ 0 (by decide)

/-- The state reached by issuing CloseWrite on an established endpoint and
then canceling the token that CloseWrite returned, before its posted
completion runs. -/
def closeWriteCanceledRun : Sys :=
  (TcpSocket.CloseWrite estSys ⟨ECat.system, 0⟩).1.cancel
    (TcpSocket.CloseWrite estSys ⟨ECat.system, 0⟩).2.tok

/-- Counterexample to C1 as stated: with the CloseWrite token canceled
before the completion runs, the completion is indeed suppressed (no handler
call, no further change), yet the endpoint's write_closed flag did change
as a result of the operation, from false to true, at issue time. -/
theorem cancel_does_not_undo_issue_effects :
    closeWriteCanceledRun.isCanceled
        (TcpSocket.CloseWrite estSys ⟨ECat.system, 0⟩).2.tok = true ∧
    TcpSocket.CloseWriteCompletion closeWriteCanceledRun
        (TcpSocket.CloseWrite estSys ⟨ECat.system, 0⟩).2 =
      (closeWriteCanceledRun, []) ∧
    estSys.write_closed_ = false ∧
    closeWriteCanceledRun.write_closed_ = true := by decide

/-- C2 (amended): ReportError, called in any state other than Closed,
immediately cancels every outstanding operation token (read, write,
connect and the previous report token), clears both busy-flags, marks both
directions closed and schedules a no-error acknowledgment to the handler;
the lifecycle state field is left unchanged by both ReportError and its
posted completion, so the endpoint does not become Closed as a result of
ReportError alone. -/
theorem reportError_spec (s : Sys) (h : s.state_ ≠ State.Closed) :
    (TcpSocket.ReportError s).1.isCanceled s.read_cancelable_ = true ∧
    (TcpSocket.ReportError s).1.isCanceled s.write_cancelable_ = true ∧
    (TcpSocket.ReportError s).1.isCanceled s.connect_cancelable_ = true ∧
    (TcpSocket.ReportError s).1.isCanceled s.report_cancelable_ = true ∧
    (TcpSocket.ReportError s).1.read_closed_ = true ∧
    (TcpSocket.ReportError s).1.write_closed_ = true ∧
    (TcpSocket.ReportError s).1.reading_ = false ∧
    (TcpSocket.ReportError s).1.writing_ = false ∧
    (TcpSocket.ReportError s).1.state_ = s.state_ ∧
    ((TcpSocket.ReportError s).1.isCanceled (TcpSocket.ReportError s).2 =
        false →
      TcpSocket.ReportErrorCompletion (TcpSocket.ReportError s).1
          (TcpSocket.ReportError s).2 =
        ((TcpSocket.ReportError s).1,
         [HandlerCall.event ErrorCode.NoError])) := by
  refine ⟨?_, ?_, ?_, ?_, ?_, ?_, ?_, ?_, ?_, ?_⟩
  · simp [TcpSocket.ReportError, Sys.cancel, Sys.isCanceled]
  · simp [TcpSocket.ReportError, Sys.cancel, Sys.isCanceled]
  · simp [TcpSocket.ReportError, Sys.cancel, Sys.isCanceled]
  · simp [TcpSocket.ReportError, Sys.cancel, Sys.isCanceled]
  · simp [TcpSocket.ReportError, Sys.cancel]
  · simp [TcpSocket.ReportError, Sys.cancel]
  · simp [TcpSocket.ReportError, Sys.cancel]
  · simp [TcpSocket.ReportError, Sys.cancel]
  · simp [TcpSocket.ReportError, Sys.cancel]
  · intro hnc
    simp [TcpSocket.ReportErrorCompletion, hnc]

/-- Witness for the amended C2: on a concrete established endpoint,
ReportError cancels the outstanding read token and leaves the state field
exactly as it was. -/
theorem reportError_spec_witness :
    (TcpSocket.ReportError estSys).1.isCanceled estSys.read_cancelable_ =
        true ∧
      (TcpSocket.ReportError estSys).1.state_ = estSys.state_ :=
  ⟨(reportError_spec estSys (by decide)).1,
   (reportError_spec estSys (by decide)).2.2.2.2.2.2.2.2.1⟩

/-- Counterexample to C2 as stated: running ReportError on an established
endpoint and then its posted acknowledgment cancels the tokens, closes
both directions and acknowledges with no error, yet the lifecycle state is
Established afterwards, not Closed, and nothing further is scheduled that
would close it. -/
theorem reportError_state_not_closed :
    (TcpSocket.ReportError estSys).1.read_closed_ = true ∧
    (TcpSocket.ReportError estSys).1.write_closed_ = true ∧
    (TcpSocket.ReportErrorCompletion (TcpSocket.ReportError estSys).1
        (TcpSocket.ReportError estSys).2).2 =
      [HandlerCall.event ErrorCode.NoError] ∧
    (TcpSocket.ReportErrorCompletion (TcpSocket.ReportError estSys).1
        (TcpSocket.ReportError estSys).2).1.state_ = State.Established ∧
    State.Established ≠ State.Closed := by decide

/-- Removing n leading bytes from a chunk-size list removes exactly n bytes
of total length, when n does not exceed the total. -/
theorem sum_trimFront (n : Nat) (l : List Nat) (h : n ≤ l.sum) :
    (trimFront n l).sum = l.sum - n := by
  induction l generalizing n with
  | nil =>
    simp only [List.sum_nil, Nat.le_zero] at h
    simp [trimFront, h]
  | cons c rest ih =>
    by_cases h0 : n = 0
    · simp [trimFront, h0]
    · by_cases hcn : c ≤ n
      · have hrest : n - c ≤ rest.sum := by
          simp only [List.sum_cons] at h
          omega
        simp only [trimFront, h0, if_false, hcn, if_true, ih _ hrest,
          List.sum_cons]
        omega
      · simp only [trimFront, h0, if_false, hcn, if_true, List.sum_cons,
          reduceIte]
        omega

/-- ShrinkBack removes exactly n bytes of logical size, when n does not
exceed the size. -/
theorem size_shrinkBack (b : Buffer) (n : Nat) (h : n ≤ b.size) :
    (b.ShrinkBack n).size = b.size - n := by
  have hrev : n ≤ b.chunks.reverse.sum := by
    rw [List.sum_reverse]
    exact h
  simp only [Buffer.ShrinkBack, Buffer.size, List.sum_reverse,
    sum_trimFront n _ hrev]

/-- C7: a successful Read completion that transferred k bytes into a buffer
of logical size n hands the handler the reconciled buffer: if k is less
than n the buffer is shrunk from the back exactly once and its logical size
equals k; if k equals n no shrink is applied and the buffer is unchanged. -/
theorem read_reconcile_spec (s : Sys) (ctx : TcpSocket.ReadCtx)
    (ec : BoostErr) (k : Nat) (hc : s.isCanceled ctx.tok = false)
    (hec : ec.failed = false) (hk : k ≤ ctx.buffer.size) :
    (TcpSocket.ReadCompletion s ctx ec k).2 =
      [HandlerCall.data (TcpSocket.reconcile ctx.buffer k)
        ErrorCode.NoError] ∧
    (k < ctx.buffer.size →
      (TcpSocket.reconcile ctx.buffer k).size = k ∧
      (TcpSocket.reconcile ctx.buffer k).shrinks =
        ctx.buffer.shrinks + 1) ∧
    (k = ctx.buffer.size → TcpSocket.reconcile ctx.buffer k = ctx.buffer) := by
  refine ⟨?_, ?_, ?_⟩
  · simp [TcpSocket.ReadCompletion, hc, hec]
  · intro hlt
    have hne : k ≠ ctx.buffer.size := Nat.ne_of_lt hlt
    have hre : TcpSocket.reconcile ctx.buffer k =
        ctx.buffer.ShrinkBack (ctx.buffer.size - k) := by
      simp [TcpSocket.reconcile, hne]
    constructor
    · rw [hre, size_shrinkBack _ _ (by omega)]
      omega
    · simp [hre, Buffer.ShrinkBack]
  · intro heq
    simp [TcpSocket.reconcile, heq]

/-- Witness for C7: a partial transfer of 6 bytes into a 15-byte two-chunk
buffer leaves logical size 6 after exactly one shrink. -/
theorem read_reconcile_spec_witness :
    (TcpSocket.reconcile ⟨[10, 5], 0⟩ 6).size = 6 ∧
    (TcpSocket.reconcile ⟨[10, 5], 0⟩ 6).shrinks = 0 + 1 :=
  (read_reconcile_spec estSys ⟨7, [], ⟨[10, 5], 0⟩⟩ ⟨ECat.system, 0⟩ 6
    (by decide) (by decide) (by decide)).2.1 (by decide)

/-- The run in which CloseWrite is issued and completes first and a Read
then observes end-of-file. -/
def closeThenEof (s : Sys) (b : Buffer) (shutEc : BoostErr) : Sys :=
  let a1 := TcpSocket.CloseWrite s shutEc
  let a2 := TcpSocket.CloseWriteCompletion a1.1 a1.2
  let a3 := TcpSocket.Read a2.1 b
  (TcpSocket.ReadCompletion a3.1 a3.2 ⟨ECat.misc, misc_eof⟩ 0).1

/-- The run in which a Read observes end-of-file first and CloseWrite is
then issued and completes. -/
def eofThenClose (s : Sys) (b : Buffer) (shutEc : BoostErr) : Sys :=
  let a1 := TcpSocket.Read s b
  let a2 := TcpSocket.ReadCompletion a1.1 a1.2 ⟨ECat.misc, misc_eof⟩ 0
  let a3 := TcpSocket.CloseWrite a2.1 shutEc
  (TcpSocket.CloseWriteCompletion a3.1 a3.2).1

/-- C5: the two closure signals are order-independent.  From any endpoint
state with both directions open, neither busy-flag set, the state not
Closed and the two tokens about to be issued not canceled, completing
CloseWrite and then observing EndOfFile on a Read ends in state Closed, and
observing EndOfFile first and completing CloseWrite afterwards also ends in
state Closed. -/
theorem halfclose_order_independent (s : Sys) (b : Buffer)
    (shutEc : BoostErr)
    (hrc : s.read_closed_ = false) (hwc : s.write_closed_ = false)
    (hrd : s.reading_ = false) (hwr : s.writing_ = false)
    (hst : s.state_ ≠ State.Closed)
    (hf1 : s.isCanceled s.nextToken = false)
    (hf2 : s.isCanceled (s.nextToken + 1) = false) :
    (closeThenEof s b shutEc).state_ = State.Closed ∧
    (eofThenClose s b shutEc).state_ = State.Closed := by
  have hf1m : s.nextToken ∉ s.canceledTokens := by
    simpa [Sys.isCanceled] using hf1
  have hf2m : s.nextToken + 1 ∉ s.canceledTokens := by
    simpa [Sys.isCanceled] using hf2
  constructor
  · simp [closeThenEof, TcpSocket.CloseWrite, TcpSocket.CloseWriteCompletion,
      TcpSocket.Read, TcpSocket.ReadCompletion, Sys.isCanceled,
      ConvertBoostError, BoostErr.failed, misc_eof, hwc, hrc, hf1m, hf2m]
  · simp [eofThenClose, TcpSocket.CloseWrite, TcpSocket.CloseWriteCompletion,
      TcpSocket.Read, TcpSocket.ReadCompletion, Sys.isCanceled,
      ConvertBoostError, BoostErr.failed, misc_eof, hwc, hrc, hwr, hf1m,
      hf2m]

/-- Witness for C5: both orders of the two closure signals end in Closed on
a concrete established endpoint. -/
theorem halfclose_order_independent_witness :
    (closeThenEof estSys ⟨[8], 0⟩ ⟨ECat.system, 0⟩).state_ = State.Closed ∧
    (eofThenClose estSys ⟨[8], 0⟩ ⟨ECat.system, 0⟩).state_ = State.Closed :=
  halfclose_order_independent estSys ⟨[8], 0⟩ ⟨ECat.system, 0⟩ (by decide)
    (by decide) (by decide) (by decide) (by decide) (by decide) (by decide)

/-- Counterexample to C8 as stated: a Write whose completion fails leaves
the endpoint's scratch span list uncleared, still holding the span of the
failed operation, so the span list is not cleared on every completion
path. -/
theorem write_error_leaves_spans :
    (TcpSocket.WriteCompletion (TcpSocket.Write estSys ⟨[4], 0⟩).1
        (TcpSocket.Write estSys ⟨[4], 0⟩).2
        ⟨ECat.system, connection_reset⟩ 0).1.write_buffer_ = [4] ∧
    ([4] : List Nat) ≠ [] := by decide

/-- C8 (amended): the scratch span lists are rebuilt from the buffer's
chunks at every issue (whose entry contract requires the list empty) and
cleared on every successful completion; on an error completion the list is
not cleared, but the same completion closes the direction, so the entry
contract of a further Read or Write on that direction can no longer hold
and a new operation never reuses stale spans. -/
theorem span_list_discipline :
    (∀ (s : Sys) (b : Buffer), s.write_buffer_ = [] →
      (TcpSocket.Write s b).1.write_buffer_ = b.flattenSpans) ∧
    (∀ (s : Sys) (b : Buffer), s.read_buffer_ = some [] →
      (TcpSocket.Read s b).2.wrapper = b.flattenSpans) ∧
    (∀ (s : Sys) (ctx : TcpSocket.WriteCtx) (ec : BoostErr) (bytes : Nat),
      s.isCanceled ctx.tok = false → ec.failed = false →
      (TcpSocket.WriteCompletion s ctx ec bytes).1.write_buffer_ = []) ∧
    (∀ (s : Sys) (ctx : TcpSocket.ReadCtx) (ec : BoostErr) (bytes : Nat),
      s.isCanceled ctx.tok = false → ec.failed = false →
      (TcpSocket.ReadCompletion s ctx ec bytes).1.read_buffer_ =
        some []) ∧
    (∀ (s : Sys) (ctx : TcpSocket.WriteCtx) (ec : BoostErr) (bytes : Nat),
      s.isCanceled ctx.tok = false → ec.failed = true →
      ∀ (b2 : Buffer),
        ¬ TcpSocket.WritePre (TcpSocket.WriteCompletion s ctx ec bytes).1
            b2) ∧
    (∀ (s : Sys) (ctx : TcpSocket.ReadCtx) (ec : BoostErr) (bytes : Nat),
      s.isCanceled ctx.tok = false → ec.failed = true →
      ∀ (b2 : Buffer),
        ¬ TcpSocket.ReadPre (TcpSocket.ReadCompletion s ctx ec bytes).1
            b2) := by
  refine ⟨?_, ?_, ?_, ?_, ?_, ?_⟩
  · intro s b hw
    simp [TcpSocket.Write, hw]
  · intro s b hr
    simp [TcpSocket.Read, hr]
  · intro s ctx ec bytes hc hf
    simp [TcpSocket.WriteCompletion, hc, hf]
  · intro s ctx ec bytes hc hf
    simp [TcpSocket.ReadCompletion, hc, hf]
  · intro s ctx ec bytes hc hf b2 hpre
    have hcl : (TcpSocket.WriteCompletion s ctx ec bytes).1.write_closed_ =
        true := by
      simp [TcpSocket.WriteCompletion, hc, hf, Sys.cancel]
    rw [hpre.1] at hcl
    exact Bool.false_ne_true hcl
  · intro s ctx ec bytes hc hf b2 hpre
    have hcl : (TcpSocket.ReadCompletion s ctx ec bytes).1.read_closed_ =
        true := by
      by_cases he : ConvertBoostError ec = ErrorCode.EndOfFile
      · simp [TcpSocket.ReadCompletion, hc, hf, he]
      · simp [TcpSocket.ReadCompletion, hc, hf, he, Sys.cancel]
    rw [hpre.1] at hcl
    exact Bool.false_ne_true hcl

/-- Witness for the amended C8: a concrete successful Write completion
leaves the scratch span list empty. -/
theorem span_list_discipline_witness :
    (TcpSocket.WriteCompletion estSys ⟨9, ⟨[4], 0⟩⟩ ⟨ECat.system, 0⟩
        4).1.write_buffer_ = [] :=
  span_list_discipline.2.2.1 estSys ⟨9, ⟨[4], 0⟩⟩ ⟨ECat.system, 0⟩ 4
    (by decide) (by decide)

end Nekit
